import Mathlib

/-!
Verification of the Multical 302 heat-meter decoder
(`src/meter_multical302.cc` of wmbusmeters) against its natural-language
specification.

The embedding is shallow: bytes are `Nat` values, buffers are `List Nat`,
the three C++ `double` measurement fields are `Int` (every value the
decoder ever stores in them is an integer), and C++ `std::vector`
subscripting — which has undefined behavior out of range — is modelled by
`List.get?`, so a decode that would read past the end of the buffer
denotes `none`.  Logging calls (`verbose`, `warning`, `logTelegram`,
`explainParse`) have no effect on the modelled state; the warning of the
unrecognized-frame branch is visible as the `DecodeResult` constructor.
-/

namespace Multical302

/-- Lower-case hex digit, as printf renders for the format `%02x`. -/
def hexDigit (n : Nat) : Char :=
  if n < 10 then Char.ofNat (48 + n) else Char.ofNat (87 + n)

/-- Two-digit lower-case hex rendering of one byte (printf format `%02x`). -/
def hexByte (b : Nat) : String :=
  String.mk [hexDigit (b / 16 % 16), hexDigit (b % 16)]

/-- Hex rendering of a byte buffer, as `bin2hex` of util.h renders the
long frame's unknown region. -/
def bin2hex (bs : List Nat) : String :=
  String.join (bs.map hexByte)

/-- One entry of a telegram's explanation trace: the byte offset where the
content iterator stood when `addExplanation` was called, the length the
call claimed, and the rendered description. -/
structure Explanation where
  offset : Nat
  length : Nat
  desc : String
deriving Repr, DecidableEq

/-- Model of `Telegram::addExplanation(bytes, len, ...)`: appends one entry
at the current iterator position and advances the iterator by `len`.
The iterator is the `Nat` position threaded through `processContent`. -/
def addExplanation (pos : Nat) (trace : List Explanation) (len : Nat)
    (desc : String) : Nat × List Explanation :=
  (pos + len, trace ++ [⟨pos, len, desc⟩])

/-- The three measurements owned by the meter instance: fields
`total_energy_kwh_`, `current_power_kw_` and `total_volume_m3_` of
`MeterMultical302`. -/
structure MeasurementStore where
  total_energy_kwh : Int
  current_power_kw : Int
  total_volume_m3 : Int
deriving Repr, DecidableEq

/-- Outcome of `processContent`: either a recognized frame (`0x79` short,
`0x78` long) was decoded, or the frame-type byte was something else and
the decoder only emitted the unknown-frame warning of line 184. -/
inductive DecodeResult where
  | ok : DecodeResult
  | unrecognizedFrameType : Nat → DecodeResult
deriving Repr, DecidableEq

/-- The telegram fields the decoder touches: address, raw payload, the
encryption and simulation flags, the decrypted `content` buffer and the
accumulated explanation trace. -/
structure Telegram where
  a_field_address : List Nat
  payload : List Nat
  encrypted : Bool
  simulated : Bool
  content : List Nat
  explanations : List Explanation
deriving Repr, DecidableEq

/-- The meter instance's state: its measurement store, whether an AES key
is configured (`useAes()`), its configured identity and its key. -/
structure MeterState where
  store : MeasurementStore
  useAes : Bool
  id : List Nat
  key : List Nat
deriving Repr, DecidableEq

/-- Modelled from the spec: `frameTypeKamstrupC1` (declared in wmbus.h,
outside this source file) renders the frame-type byte for the trace text;
the device family has a short frame `0x79` and a long frame `0x78`
(spec sections 2 and 4.2).  Only the description string depends on it. -/
def frameTypeKamstrupC1 (ft : Nat) : String :=
  if ft = 0x78 then "long frame" else
  if ft = 0x79 then "short frame" else "unknown"

/-- Two consecutive bytes of a buffer, or `none` when either subscript is
out of bounds. -/
def get2 (l : List Nat) (lo : Nat) : Option (Nat × Nat) :=
  match l.get? lo, l.get? (lo + 1) with
  | some a, some b => some (a, b)
  | _, _ => none

/-- Three consecutive bytes of a buffer, or `none` out of bounds. -/
def get3 (l : List Nat) (lo : Nat) : Option (Nat × Nat × Nat) :=
  match l.get? lo, l.get? (lo + 1), l.get? (lo + 2) with
  | some a, some b, some c => some (a, b, c)
  | _, _, _ => none

/-- Four consecutive bytes of a buffer, or `none` out of bounds. -/
def get4 (l : List Nat) (lo : Nat) : Option (Nat × Nat × Nat × Nat) :=
  match l.get? lo, l.get? (lo + 1), l.get? (lo + 2), l.get? (lo + 3) with
  | some a, some b, some c, some d => some (a, b, c, d)
  | _, _, _, _ => none

/-- The `n` bytes of a buffer starting at `lo`, or `none` when any of them
is out of bounds. -/
def getRange (l : List Nat) (lo : Nat) : Nat → Option (List Nat)
  | 0 => some []
  | n + 1 =>
    match l.get? lo, getRange l (lo + 1) n with
    | some b, some bs => some (b :: bs)
    | _, _ => none

/-- Model of `MeterMultical302::processContent` (lines 119-186).  The
reads mirror the source: the two crc bytes at 0-1 and the frame-type byte
at 2; for the short frame `0x79` the ranges 3-6 (unknown), 7-9 (energy
record), 10-12 (unknown) and 13-15 (volume record); for the long frame
`0x78` the unknown region 3-23 (copied in the source through the
iterators `begin()+3` to `begin()+24`) and the power record at 24-25.  A
subscript out of range is undefined behavior on the source's
`std::vector`, so any out-of-bounds read makes the whole call denote
`none`; consequently the reads of one branch can be gathered into one
match without changing the denotation. -/
def processContent (content : List Nat) (s : MeasurementStore)
    (trace0 : List Explanation) :
    Option (MeasurementStore × List Explanation × DecodeResult) :=
  match get2 content 0, content.get? 2 with
  | some (crc0, crc1), some frame_type =>
    let (pos, trace) := addExplanation 0 trace0 2
      (hexByte crc0 ++ hexByte crc1 ++ " payload crc")
    let (pos, trace) := addExplanation pos trace 1
      (hexByte frame_type ++ " frame type (" ++
        frameTypeKamstrupC1 frame_type ++ ")")
    if frame_type = 0x79 then
      match get4 content 3, get3 content 7, get3 content 10, get3 content 13 with
      | some (b3, b4, b5, b6), some (rec1val0, rec1val1, rec1val2),
        some (b10, b11, b12), some (rec2val0, rec2val1, rec2val2) =>
        let (pos, trace) := addExplanation pos trace 4
          (hexByte b3 ++ hexByte b4 ++ hexByte b5 ++ hexByte b6 ++ " unknown")
        let (pos, trace) := addExplanation pos trace 4
          (hexByte b10 ++ hexByte b11 ++ hexByte b12 ++ " unknown")
        let total_energy_raw : Int :=
          (rec1val2 : Int) * 256 * 256 + (rec1val1 : Int) * 256 + (rec1val0 : Int)
        let s1 := { s with total_energy_kwh := total_energy_raw }
        let (pos, trace) := addExplanation pos trace 3
          (hexByte rec1val0 ++ hexByte rec1val1 ++ hexByte rec1val2 ++
            " total power (" ++ toString total_energy_raw ++ ")")
        let total_volume_raw : Int :=
          (rec2val2 : Int) * 256 * 256 + (rec2val1 : Int) * 256 + (rec2val0 : Int)
        let s2 := { s1 with total_volume_m3 := total_volume_raw }
        let (_, trace) := addExplanation pos trace 3
          (hexByte rec2val0 ++ hexByte rec2val1 ++ hexByte rec2val2 ++
            " total volume (" ++ toString total_volume_raw ++ ")")
        some (s2, trace, DecodeResult.ok)
      | _, _, _, _ => none
    else if frame_type = 0x78 then
      match getRange content 3 21, get2 content 24 with
      | some unknowns, some (rec1val0, rec1val1) =>
        let (pos, trace) := addExplanation pos trace (23 - 2)
          (bin2hex unknowns ++ " unknown")
        let current_power_raw : Int :=
          ((rec1val1 : Int) * 256 + (rec1val0 : Int)) * 100
        let s1 := { s with current_power_kw := current_power_raw }
        let (_, trace) := addExplanation pos trace 2
          (hexByte rec1val0 ++ hexByte rec1val1 ++
            " current power (" ++ toString current_power_raw ++ ")")
        some (s1, trace, DecodeResult.ok)
      | _, _ => none
    else
      some (s, trace, DecodeResult.unrecognizedFrameType frame_type)
  | _, _ => none

/-- Outcome of one `handleTelegram` run: the telegram was filtered out by
the address check, or it was processed and `processContent` produced the
given result. -/
inductive HandleOutcome where
  | notForMe : HandleOutcome
  | processed : DecodeResult → HandleOutcome
deriving Repr, DecidableEq

/-- Modelled from the spec: `isTelegramForMe` (MeterCommonImplementation,
outside this source file) keeps exactly the telegrams whose address
matches this device instance's configured identity (spec section 4.4,
`AddressFiltered`). -/
def isTelegramForMe (m : MeterState) (t : Telegram) : Bool :=
  t.a_field_address == m.id

/-- Model of lines 104-109 of `handleTelegram`, the decryption gate.  The
source branches on `useAes()` — a key is configured — and not on the
telegram's `isEncrypted()` flag: with a key the external
`decryptMode1_AES_CTR` primitive (here the parameter `dec`, taking the
key and the payload) is invoked; without one, `content` becomes the
payload unchanged. -/
def decryptionGate (dec : List Nat → List Nat → List Nat) (m : MeterState)
    (t : Telegram) : List Nat :=
  if m.useAes then dec m.key t.payload else t.payload

/-- Model of `MeterMultical302::handleTelegram` (lines 89-117): address
filter, decryption gate, `processContent`, then `triggerUpdate(t)` —
called unconditionally, whatever `processContent` decided.  The `Nat`
component counts the `triggerUpdate` calls; modelled from the spec,
`triggerUpdate` (MeterCommonImplementation, outside this source file)
notifies the registered subscribers once per call (spec section 4.4).
`none` again denotes an out-of-bounds read inside `processContent`. -/
def handleTelegram (dec : List Nat → List Nat → List Nat) (m : MeterState)
    (t : Telegram) : Option (MeterState × Telegram × HandleOutcome × Nat) :=
  if isTelegramForMe m t then
    match processContent (decryptionGate dec m t) m.store t.explanations with
    | none => none
    | some (s, trace, res) =>
        some ({ m with store := s },
          { t with content := decryptionGate dec m t, explanations := trace },
          HandleOutcome.processed res, 1)
  else
    some (m, t, HandleOutcome.notForMe, 0)

/-- The outcome component of a `handleTelegram` run. -/
def handleOutcome (dec : List Nat → List Nat → List Nat) (m : MeterState)
    (t : Telegram) : Option HandleOutcome :=
  (handleTelegram dec m t).map (fun r => r.2.2.1)

/-- How many subscriber notifications a `handleTelegram` run fired. -/
def handleNotifications (dec : List Nat → List Nat → List Nat)
    (m : MeterState) (t : Telegram) : Option Nat :=
  (handleTelegram dec m t).map (fun r => r.2.2.2)

/-- The unit argument of the meter query interface (meters.h, outside this
source file); only the units this meter's code mentions are needed. -/
inductive MeterUnit where
  | KWH : MeterUnit
  | KW : MeterUnit
  | M3 : MeterUnit
deriving Repr, DecidableEq

/-- Model of `MeterMultical302::currentPeriodEnergyConsumption`
(lines 73-76): the body is `return 0;`, reading nothing. -/
def currentPeriodEnergyConsumption (_s : MeasurementStore)
    (_u : MeterUnit) : Int :=
  0

/-- Model of `MeterMultical302::previousPeriodEnergyConsumption`
(lines 78-81): the body is `return 0;`, reading nothing. -/
def previousPeriodEnergyConsumption (_s : MeasurementStore)
    (_u : MeterUnit) : Int :=
  0

/-- Modelled from the spec: one instance of the external AES-CTR
decryption primitive (spec sections 4.3 and 6), which XORs the
ciphertext with a key-derived keystream; this instance's keystream is the
constant byte `0xFF`. -/
def ctrXor (_key : List Nat) (payload : List Nat) : List Nat :=
  payload.map (fun b => b ^^^ 0xFF)

/-- A decryption argument for runs in which the gate never invokes it. -/
def noDecrypt (_key : List Nat) (payload : List Nat) : List Nat :=
  payload

/-- An all-zero measurement store, for concrete runs. -/
def s0 : MeasurementStore := ⟨0, 0, 0⟩

/-- A meter with no AES key configured and identity 1.2.3.4. -/
def exMeter : MeterState := ⟨s0, false, [1, 2, 3, 4], []⟩

/-- The same meter with an AES key configured. -/
def exAesMeter : MeterState := ⟨s0, true, [1, 2, 3, 4], [9]⟩

/-- A plaintext telegram addressed to `exMeter` whose frame-type byte is
`0x00`, which neither frame layout recognizes. -/
def exBadFrameTelegram : Telegram :=
  ⟨[1, 2, 3, 4], [0, 0, 0], false, false, [], []⟩

/-- An unencrypted telegram addressed to `exMeter` whose payload is three
`0xFF` bytes. -/
def exFFTelegram : Telegram :=
  ⟨[1, 2, 3, 4], [0xFF, 0xFF, 0xFF], false, false, [], []⟩

/-- A telegram whose address matches no meter of this development. -/
def exOtherTelegram : Telegram :=
  ⟨[9, 9, 9, 9], [0, 0, 0x79], false, false, [7, 7], [⟨0, 1, "stale"⟩]⟩

/-- Congruence for projections of an `Option.bind` chain: to compare two
mapped bind chains over the same head it is enough to compare the mapped
continuations pointwise. -/
theorem optionCongrAux {α β γ : Type} (o : Option α) (f g : α → Option β)
    (pf pg : β → γ) (h : ∀ a, (f a).map pf = (g a).map pg) :
    (o.bind f).map pf = (o.bind g).map pg := by
  cases o with
  | none => rfl
  | some a => exact h a

/-- C10: both period-energy queries of the public interface return exactly
zero for every unit and every store, and in particular do not depend on
any stored measurement. -/
theorem C10_period_stubs (s s' : MeasurementStore) (u u' : MeterUnit) :
    currentPeriodEnergyConsumption s u = 0 ∧
    previousPeriodEnergyConsumption s u = 0 ∧
    currentPeriodEnergyConsumption s u = currentPeriodEnergyConsumption s' u' ∧
    previousPeriodEnergyConsumption s u = previousPeriodEnergyConsumption s' u' :=
  ⟨rfl, rfl, rfl, rfl⟩

/-- C4: a short-frame buffer (frame-type byte `0x79`) decodes the record
at offsets 7-9 into `total_energy_kwh` and the record at offsets 13-15
into `total_volume_m3`, each composed little-endian
(`value = b0 + b1 * 256 + b2 * 256 * 256`, written here most-significant
first) with no scale factor; in particular the records `(0x01,0x00,0x00)`
and `(0x02,0x00,0x00)` give energy 1 and volume 2. -/
theorem C4_short_frame_values
    (c0 c1 c3 c4 c5 c6 e0 e1 e2 c10 c11 c12 v0 v1 v2 : Nat)
    (rest : List Nat) (s : MeasurementStore) (tr : List Explanation) :
    (processContent
        ([c0, c1, 0x79, c3, c4, c5, c6, e0, e1, e2, c10, c11, c12, v0, v1, v2]
          ++ rest) s tr).map (fun r => (r.1, r.2.2)) =
      some ({ s with
                total_energy_kwh :=
                  (e2 : Int) * 256 * 256 + (e1 : Int) * 256 + (e0 : Int),
                total_volume_m3 :=
                  (v2 : Int) * 256 * 256 + (v1 : Int) * 256 + (v0 : Int) },
            DecodeResult.ok) ∧
    (processContent
        ([0, 0, 0x79, 0, 0, 0, 0, 1, 0, 0, 0, 0, 0, 2, 0, 0] ++ rest) s tr).map
        (fun r => (r.1, r.2.2)) =
      some ({ s with total_energy_kwh := 1, total_volume_m3 := 2 },
            DecodeResult.ok) :=
  ⟨rfl, rfl⟩

/-- C5: a long-frame buffer (frame-type byte `0x78`) decodes the 16-bit
little-endian record at offsets 24-25 into `current_power_kw`, scaled by
100; in particular the record `(0x0A,0x00)` gives power 10 * 100 = 1000. -/
theorem C5_long_frame_power
    (c0 c1 u3 u4 u5 u6 u7 u8 u9 u10 u11 u12 u13 u14 u15 u16 u17 u18 u19 u20
      u21 u22 u23 p0 p1 : Nat)
    (rest : List Nat) (s : MeasurementStore) (tr : List Explanation) :
    (processContent
        ([c0, c1, 0x78, u3, u4, u5, u6, u7, u8, u9, u10, u11, u12, u13, u14,
          u15, u16, u17, u18, u19, u20, u21, u22, u23, p0, p1] ++ rest)
        s tr).map (fun r => (r.1, r.2.2)) =
      some ({ s with current_power_kw := ((p1 : Int) * 256 + (p0 : Int)) * 100 },
            DecodeResult.ok) ∧
    (processContent
        [0, 0, 0x78, 0, 0, 0, 0, 0, 0, 0, 0, 0, 0, 0, 0, 0, 0, 0, 0, 0, 0, 0,
          0, 0, 0x0A, 0x00] s tr).map (fun r => (r.1, r.2.2)) =
      some ({ s with current_power_kw := 1000 }, DecodeResult.ok) :=
  ⟨rfl, rfl⟩

/-- C7: a telegram whose address does not match the meter's configured
identity is returned unprocessed: the meter state (all three
measurements included) is unchanged, the telegram (its explanation trace
included) is unchanged, and no notification fires. -/
theorem C7_address_filter (dec : List Nat → List Nat → List Nat)
    (m : MeterState) (t : Telegram) (h : isTelegramForMe m t = false) :
    handleTelegram dec m t = some (m, t, HandleOutcome.notForMe, 0) := by
  simp [handleTelegram, h]

/-- Witness for C7 at a concrete mismatched telegram. -/
theorem C7_address_filter_witness :
    isTelegramForMe exMeter exOtherTelegram = false ∧
    handleTelegram noDecrypt exMeter exOtherTelegram =
      some (exMeter, exOtherTelegram, HandleOutcome.notForMe, 0) :=
  ⟨rfl, C7_address_filter noDecrypt exMeter exOtherTelegram rfl⟩

/-- C3 (amended): the gate is the identity exactly when no AES key is
configured — for a meter with `useAes = false` the content handed to the
frame decoder equals the payload unchanged, whatever the encrypted flag
says.  (With a key configured the primitive is invoked even for an
unencrypted telegram; see the counterexample.) -/
theorem C3_gate_identity_without_key (dec : List Nat → List Nat → List Nat)
    (m : MeterState) (t : Telegram) (h : m.useAes = false) :
    decryptionGate dec m t = t.payload := by
  simp [decryptionGate, h]

/-- Witness for C3 at a concrete keyless meter. -/
theorem C3_gate_witness :
    exMeter.useAes = false ∧
    decryptionGate ctrXor exMeter exFFTelegram = exFFTelegram.payload :=
  ⟨rfl, C3_gate_identity_without_key ctrXor exMeter exFFTelegram rfl⟩

/-- C3 as stated is false: for a meter with an AES key configured the gate
is not the identity on a telegram with `encrypted = false` — the branch
of line 104 tests `useAes()`, not `isEncrypted()`. -/
theorem C3_counterexample :
    ¬ (∀ (dec : List Nat → List Nat → List Nat) (m : MeterState)
        (t : Telegram), t.encrypted = false →
        decryptionGate dec m t = t.payload) := by
  intro h
  exact absurd (h ctrXor exAesMeter exFFTelegram rfl) (by decide)

/-- C1 (amended): the subscriber notification fires exactly once per
telegram that passes address filtering and is processed without an
out-of-bounds read — whatever `processContent` decided — and never for an
address-rejected telegram. -/
theorem C1_notification_per_accepted (dec : List Nat → List Nat → List Nat)
    (m : MeterState) (t : Telegram) (n : Nat)
    (h : handleNotifications dec m t = some n) :
    n = if isTelegramForMe m t then 1 else 0 := by
  cases hf : isTelegramForMe m t with
  | false =>
    simp [handleNotifications, handleTelegram, hf] at h
    simp [hf]
    omega
  | true =>
    simp only [handleNotifications, handleTelegram, hf, if_true] at h
    simp only [hf, if_true]
    cases hp : processContent (decryptionGate dec m t) m.store t.explanations with
    | none => rw [hp] at h; simp at h
    | some r =>
      obtain ⟨s', tr', res⟩ := r
      rw [hp] at h
      simp at h
      omega

/-- Witness for C1 (amended) at a concrete accepted telegram whose frame
type is unrecognized: the notification fires anyway. -/
theorem C1_notification_witness :
    handleNotifications noDecrypt exMeter exBadFrameTelegram = some 1 ∧
    (1 : Nat) = if isTelegramForMe exMeter exBadFrameTelegram then 1 else 0 :=
  ⟨by decide,
    C1_notification_per_accepted noDecrypt exMeter exBadFrameTelegram 1 (by decide)⟩

/-- C1 as stated is false: `triggerUpdate(t)` on line 116 runs
unconditionally after `processContent`, so a decode that fails with an
unrecognized frame type still fires one notification, not zero. -/
theorem C1_counterexample :
    ¬ (∀ (dec : List Nat → List Nat → List Nat) (m : MeterState)
        (t : Telegram) (ft : Nat),
        handleOutcome dec m t =
          some (HandleOutcome.processed (DecodeResult.unrecognizedFrameType ft)) →
        handleNotifications dec m t = some 0) := by
  intro h
  exact absurd (h noDecrypt exMeter exBadFrameTelegram 0 (by decide)) (by decide)

/-- Helper: the unrecognized-frame branch of `processContent` in closed
form — for a frame-type byte that is neither `0x78` nor `0x79`, the store
comes back unchanged and the trace gains exactly the crc and frame-type
entries. -/
theorem processContent_unknown (c0 c1 ft : Nat) (rest : List Nat)
    (s : MeasurementStore) (tr : List Explanation)
    (h79 : ft ≠ 0x79) (h78 : ft ≠ 0x78) :
    processContent (c0 :: c1 :: ft :: rest) s tr =
      some (s,
        tr ++ [⟨0, 2, hexByte c0 ++ hexByte c1 ++ " payload crc"⟩,
               ⟨2, 1, hexByte ft ++ " frame type (" ++
                  frameTypeKamstrupC1 ft ++ ")"⟩],
        DecodeResult.unrecognizedFrameType ft) := by
  simp [processContent, get2, addExplanation, List.get?, h79, h78]

/-- C6: a buffer whose frame-type byte is neither `0x78` nor `0x79`
decodes to the unrecognized-frame warning: the measurement store is
returned unchanged and the trace keeps exactly the already-recorded crc
and frame-type explanations. -/
theorem C6_unrecognized_frame (c0 c1 ft : Nat) (rest : List Nat)
    (s : MeasurementStore) (tr : List Explanation)
    (h79 : ft ≠ 0x79) (h78 : ft ≠ 0x78) :
    processContent (c0 :: c1 :: ft :: rest) s tr =
      some (s,
        tr ++ [⟨0, 2, hexByte c0 ++ hexByte c1 ++ " payload crc"⟩,
               ⟨2, 1, hexByte ft ++ " frame type (" ++
                  frameTypeKamstrupC1 ft ++ ")"⟩],
        DecodeResult.unrecognizedFrameType ft) :=
  processContent_unknown c0 c1 ft rest s tr h79 h78

/-- Witness for C6 at the concrete frame-type byte `0x00`. -/
theorem C6_unrecognized_frame_witness :
    ((0 : Nat) ≠ 0x79 ∧ (0 : Nat) ≠ 0x78) ∧
    processContent [0, 0, 0] s0 [] =
      some (s0,
        [⟨0, 2, hexByte 0 ++ hexByte 0 ++ " payload crc"⟩,
         ⟨2, 1, hexByte 0 ++ " frame type (" ++ frameTypeKamstrupC1 0 ++ ")"⟩],
        DecodeResult.unrecognizedFrameType 0) :=
  ⟨⟨by decide, by decide⟩,
    C6_unrecognized_frame 0 0 0 [] s0 [] (by decide) (by decide)⟩

/-- C8: frame isolation — a short-frame decode (`0x79`) never changes
`current_power_kw`, and a long-frame decode (`0x78`) never changes
`total_energy_kwh` or `total_volume_m3`: wherever the decode is defined,
projecting the untouched fields equals projecting the old store. -/
theorem C8_frame_isolation (c0 c1 : Nat) (rest : List Nat)
    (s : MeasurementStore) (tr : List Explanation) :
    ((processContent (c0 :: c1 :: 0x79 :: rest) s tr).map
        (fun r => r.1.current_power_kw)
      = (processContent (c0 :: c1 :: 0x79 :: rest) s tr).map
        (fun _ => s.current_power_kw)) ∧
    ((processContent (c0 :: c1 :: 0x78 :: rest) s tr).map
        (fun r => (r.1.total_energy_kwh, r.1.total_volume_m3))
      = (processContent (c0 :: c1 :: 0x78 :: rest) s tr).map
        (fun _ => (s.total_energy_kwh, s.total_volume_m3))) := by
  constructor
  · simp only [processContent]
    cases h4 : get4 (c0 :: c1 :: 0x79 :: rest) 3 with
    | none => rfl
    | some q4 =>
      obtain ⟨b3, b4, b5, b6⟩ := q4
      cases h7 : get3 (c0 :: c1 :: 0x79 :: rest) 7 with
      | none => rfl
      | some q7 =>
        obtain ⟨e0, e1, e2⟩ := q7
        cases h10 : get3 (c0 :: c1 :: 0x79 :: rest) 10 with
        | none => rfl
        | some q10 =>
          obtain ⟨b10, b11, b12⟩ := q10
          cases h13 : get3 (c0 :: c1 :: 0x79 :: rest) 13 with
          | none => rfl
          | some q13 =>
            obtain ⟨v0, v1, v2⟩ := q13
            rfl
  · simp only [processContent]
    cases hR : getRange (c0 :: c1 :: 0x78 :: rest) 3 21 with
    | none => rfl
    | some unknowns =>
      cases h24 : get2 (c0 :: c1 :: 0x78 :: rest) 24 with
      | none => rfl
      | some p =>
        obtain ⟨p0, p1⟩ := p
        rfl

/-- C9: the two leading bytes are recorded as an opaque checksum and never
validated — two content buffers that agree everywhere except at offsets 0
and 1 decode to the same success-or-failure outcome, the same decode
result and the same three measurement values (only the rendered trace
text can differ). -/
theorem C9_checksum_opaque (c0 c1 d0 d1 : Nat) (rest : List Nat)
    (s : MeasurementStore) (tr tr' : List Explanation) :
    (processContent (c0 :: c1 :: rest) s tr).map (fun r => (r.1, r.2.2)) =
    (processContent (d0 :: d1 :: rest) s tr').map (fun r => (r.1, r.2.2)) := by
  cases rest with
  | nil => rfl
  | cons ft rest2 =>
    by_cases h79 : ft = 0x79
    · subst h79
      simp only [processContent]
      rw [show get4 (c0 :: c1 :: (0x79 : Nat) :: rest2) 3 = get4 rest2 0 from rfl,
        show get4 (d0 :: d1 :: (0x79 : Nat) :: rest2) 3 = get4 rest2 0 from rfl,
        show get3 (c0 :: c1 :: (0x79 : Nat) :: rest2) 7 = get3 rest2 4 from rfl,
        show get3 (d0 :: d1 :: (0x79 : Nat) :: rest2) 7 = get3 rest2 4 from rfl,
        show get3 (c0 :: c1 :: (0x79 : Nat) :: rest2) 10 = get3 rest2 7 from rfl,
        show get3 (d0 :: d1 :: (0x79 : Nat) :: rest2) 10 = get3 rest2 7 from rfl,
        show get3 (c0 :: c1 :: (0x79 : Nat) :: rest2) 13 = get3 rest2 10 from rfl,
        show get3 (d0 :: d1 :: (0x79 : Nat) :: rest2) 13 = get3 rest2 10 from rfl]
      cases h4 : get4 rest2 0 with
      | none => rfl
      | some q4 =>
        obtain ⟨b3, b4, b5, b6⟩ := q4
        cases h7 : get3 rest2 4 with
        | none => rfl
        | some q7 =>
          obtain ⟨e0, e1, e2⟩ := q7
          cases h10 : get3 rest2 7 with
          | none => rfl
          | some q10 =>
            obtain ⟨b10, b11, b12⟩ := q10
            cases h13 : get3 rest2 10 with
            | none => rfl
            | some q13 =>
              obtain ⟨v0, v1, v2⟩ := q13
              rfl
    · by_cases h78 : ft = 0x78
      · subst h78
        simp only [processContent]
        rw [show getRange (c0 :: c1 :: (0x78 : Nat) :: rest2) 3 21
              = getRange rest2 0 21 from rfl,
          show getRange (d0 :: d1 :: (0x78 : Nat) :: rest2) 3 21
              = getRange rest2 0 21 from rfl,
          show get2 (c0 :: c1 :: (0x78 : Nat) :: rest2) 24 = get2 rest2 21 from rfl,
          show get2 (d0 :: d1 :: (0x78 : Nat) :: rest2) 24 = get2 rest2 21 from rfl]
        cases hR : getRange rest2 0 21 with
        | none => rfl
        | some unknowns =>
          cases h24 : get2 rest2 21 with
          | none => rfl
          | some p =>
            obtain ⟨p0, p1⟩ := p
            rfl
      · rw [processContent_unknown c0 c1 ft rest2 s tr h79 h78,
          processContent_unknown d0 d1 ft rest2 s tr' h79 h78]
        rfl

/-- C2: at the failing input — a 3-byte content buffer whose frame-type
byte is `0x79` — the short-frame decode immediately reads `content[3]`
past the end of the buffer, which is undefined behavior in the source
(`std::vector` subscript out of range; the zero-padding of lines 129-134
is commented out), so the decode denotes `none`: no in-bounds lenient
decode with zero-filled trailing bytes takes place. -/
theorem C2_out_of_bounds : processContent [0, 0, 0x79] s0 [] = none := by
  decide

end Multical302
